import Mathlib

/-!
# Verification of the literature-review dashboard's identity / store model

Shallow embedding of the paper-record normalization, identity computation,
paper-store upsert, feedback, reading-list and selected-paper resolution
logic of `src/app.py` and `src/literature_review_app.py`, together with
proofs of the specification's claims about them.

Python values of the form `paperId or id or hash(...)` are modelled with an
explicit identifier type `PId` (string or integer identifiers, mirroring the
fact that OpenAlex IDs are strings while local IDs and `hash` results are
integers) and explicit Python truthiness.  Python's builtin string `hash`
is an unspecified deterministic function; it is represented here by a fixed
deterministic function `pyHash` — none of the claims depend on anything but
its determinism (equal strings hash equally).
-/

set_option autoImplicit false

namespace LitReview

/-- A Python paper-identifier value: either a string (OpenAlex IDs such as
`"W123"`) or an integer (local-corpus ids, `hash` results). -/
inductive PId where
  | str : String → PId
  | int : Int → PId
deriving DecidableEq, Repr

/-- Python `str()` applied to an identifier value. -/
def pidStr : PId → String
  | .str s => s
  | .int n => toString n

/-- Python truthiness of an identifier value: `""` and `0` are falsy. -/
def pidTruthy : PId → Bool
  | .str s => s ≠ ""
  | .int n => n ≠ 0

/-- Model of Python's builtin `hash` on strings: a fixed deterministic
function (the source relies only on determinism, see spec §9). -/
def pyHash (s : String) : Int :=
  Int.ofNat (s.data.foldl (fun h c => (h * 31 + c.toNat) % 2305843009213693951) 7)

/-! ### Executable string primitives

Structural-recursion models of the Python string operations the source
uses (`str.strip`, `str.replace`, `str.split`, `str.startswith`,
`str.upper`, `in`, `int(...)`), so that every definition in this file
evaluates inside the kernel. -/

/-- Characters Python's default `str.strip` removes. -/
def isPySpace (c : Char) : Bool :=
  c = ' ' ∨ c = '\t' ∨ c = '\n' ∨ c = '\r' ∨ c.toNat = 11 ∨ c.toNat = 12

/-- If `pat` is a prefix of the second list, return the remainder. -/
def dropPre? : List Char → List Char → Option (List Char)
  | [], l => some l
  | _, [] => none
  | p :: ps, c :: cs => if p = c then dropPre? ps cs else none

/-- Fuel-driven worker for `strReplace` (leftmost, non-overlapping). -/
def replFuel (pat repl : List Char) : Nat → List Char → List Char
  | 0, l => l
  | _ + 1, [] => []
  | fuel + 1, c :: cs =>
    match dropPre? pat (c :: cs) with
    | some rest => repl ++ replFuel pat repl fuel rest
    | none => c :: replFuel pat repl fuel cs

/-- Python `s.replace(pat, repl)`: replace every (leftmost,
non-overlapping) occurrence.  Every pattern in the source is nonempty. -/
def strReplace (s pat repl : String) : String :=
  if pat.data = [] then s
  else ⟨replFuel pat.data repl.data (s.data.length + 1) s.data⟩

/-- Fuel-driven worker for `strSplitOn`. -/
def splitFuel (pat : List Char) : Nat → List Char → List Char → List (List Char)
  | 0, l, acc => [acc.reverse ++ l]
  | _ + 1, [], acc => [acc.reverse]
  | fuel + 1, c :: cs, acc =>
    match dropPre? pat (c :: cs) with
    | some rest => acc.reverse :: splitFuel pat fuel rest []
    | none => splitFuel pat fuel cs (c :: acc)

/-- Python `s.split(pat)` for a nonempty separator pattern. -/
def strSplitOn (s pat : String) : List String :=
  (splitFuel pat.data (s.data.length + 1) s.data []).map (fun l => ⟨l⟩)

/-- Python `s.strip()`. -/
def pyStrip (s : String) : String :=
  ⟨((s.data.dropWhile isPySpace).reverse.dropWhile isPySpace).reverse⟩

/-- Python `s.startswith(pat)`. -/
def strStarts (s pat : String) : Bool :=
  (dropPre? pat.data s.data).isSome

/-- ASCII upper-casing of one character (Python `str.upper` restricted to
the ASCII letters that occur in the source's literals). -/
def chUpper (c : Char) : Char :=
  if 'a' ≤ c ∧ c ≤ 'z' then Char.ofNat (c.toNat - 32) else c

/-- Python `s.upper()`. -/
def strUpper (s : String) : String := ⟨s.data.map chUpper⟩

/-- Python `int(...)` on a nonempty all-digit string. -/
def parseDigits (l : List Char) : Nat :=
  l.foldl (fun n c => n * 10 + (c.toNat - 48)) 0

/-- The normalized paper dictionary built by the adapters in `src/app.py`
(`search_openalex` result objects and local-corpus normalization share this
shape).  `paperId = none` / `id = none` model an absent dictionary key. -/
structure Paper where
  paperId : Option String := none
  id : Option PId := none
  title : String := ""
  authors : List String := []
  year : Int := 0
  abstract : String := ""
  journal : String := ""
  doi : String := ""
  keywords : List String := []
  citation_count : Int := 0
  url : String := ""
deriving DecidableEq, Repr

/-- The weak title/year hash `hash(f"{title}_{year}")` used throughout
`src/app.py`. -/
def titleYearHash (p : Paper) : Int :=
  pyHash (p.title ++ "_" ++ toString p.year)

/-- `p.get('paperId') or p.get('id') or hash(f"{...title...}_{...year...}")`
(`src/app.py` lines 619, 623, 639, 594): falsy values (`None`, `""`, `0`)
fall through to the next alternative. -/
def fallbackId (p : Paper) : PId :=
  match p.paperId with
  | some s => if s ≠ "" then .str s else fallbackIdNoPaperId p
  | none => fallbackIdNoPaperId p
where
  /-- The `p.get('id') or hash(...)` tail of the chain. -/
  fallbackIdNoPaperId (p : Paper) : PId :=
    match p.id with
    | some i => if pidTruthy i then i else .int (titleYearHash p)
    | none => .int (titleYearHash p)

/-- `paper_id = p.get('paperId') or p.get('id'); if paper_id is None:
paper_id = hash(...)` (`src/app.py` lines 856-858): here a falsy-but-present
`id` (such as `0`) is kept, only `None` falls through to the hash. -/
def lookupFallbackId (p : Paper) : PId :=
  match p.paperId with
  | some s => if s ≠ "" then .str s else lookupTail p
  | none => lookupTail p
where
  /-- `p.get('id')` with `None` replaced by the title/year hash. -/
  lookupTail (p : Paper) : PId :=
    match p.id with
    | some i => i
    | none => .int (titleYearHash p)

/-- The id computed for a candidate in the selected-paper lookup
(`src/app.py` lines 849-858): a string `paperId` starting with `'W'`
(an OpenAlex id) takes priority, otherwise the `paperId or id or hash`
fallback. -/
def lookupId (p : Paper) : PId :=
  match p.paperId with
  | some s => if s ≠ "" ∧ strStarts s "W" then .str s else lookupFallbackId p
  | none => lookupFallbackId p

/-- The loop of `src/app.py` lines 622-626: append each incoming paper whose
id (`fallbackId`) is not in the `seen_ids` set, recording appended ids. -/
def updLoop (store : List Paper) (seen : List PId) : List Paper → List Paper
  | [] => store
  | p :: rest =>
    if fallbackId p ∈ seen then updLoop store seen rest
    else updLoop (store ++ [p]) (fallbackId p :: seen) rest

/-- `src/app.py` lines 615-626: `seen_ids` is seeded with the ids of every
paper already in `all_loaded_papers`, then incoming papers are appended
only when their id is unseen.  Note: an already-present id keeps the OLD
stored record — nothing is replaced. -/
def updateAllLoaded (store : List Paper) (newPapers : List Paper) : List Paper :=
  updLoop store (store.map fallbackId) newPapers

/-- Feedback entry `{"relevant": None, "note": ""}`-shaped values of
`st.session_state.paper_feedback` (`src/app.py` line 970). -/
structure Feedback where
  relevant : Option Bool := none
  note : String := ""
deriving DecidableEq, Repr

/-- The session-state components named by the spec's Paper Store: the
accumulated papers, the feedback mapping (keyed by the
`f"feedback_{paper_id}"` strings) and the reading list
(`st.session_state.selected_papers`). -/
structure Session where
  allLoadedPapers : List Paper := []
  paperFeedback : List (String × Feedback) := []
  selectedPapers : List Paper := []
deriving DecidableEq, Repr

/-- The store-update step of a render pass (`src/app.py` lines 611-626):
when the current result list is nonempty, merge it into
`all_loaded_papers`; feedback and the reading list are not touched. -/
def upsertPapers (s : Session) (papers : List Paper) : Session :=
  if papers = [] then s
  else { s with allLoadedPapers := updateAllLoaded s.allLoadedPapers papers }

/-- Number of stored entries whose `fallbackId` is `i`. -/
def countId (i : PId) (l : List Paper) : Nat :=
  (l.filter (fun p => fallbackId p = i)).length

/-! ## Raw source records and normalization

Raw API payload fields are modelled as `Option` values, `none` standing for
an absent dictionary key (the claims under scrutiny are about missing
fields; a key present with JSON `null` is treated the same where the code's
`.get(...) or`-chains treat them the same). -/

/-- Python `a or default` for a string-valued optional field: `None` and
`""` are falsy. -/
def orStr (a : Option String) (d : String) : String :=
  match a with
  | some s => if s = "" then d else s
  | none => d

/-- The `source` object inside an OpenAlex `primary_location`. -/
structure RawSource where
  display_name : Option String := none
deriving DecidableEq, Repr

/-- An OpenAlex `primary_location` object. -/
structure RawLocation where
  source : Option RawSource := none
  landing_page_url : Option String := none
deriving DecidableEq, Repr

/-- One OpenAlex work object, restricted to the keys `search_openalex`
reads (`src/app.py` lines 117-181).  An authorship is modelled by the
display name of its `author` (`none` = authorship without an `author`
key); a concept by its optional `display_name`. -/
structure RawWork where
  id : Option String := none
  display_name : Option String := none
  title : Option String := none
  authorships : Option (List (Option String)) := none
  publication_year : Option Int := none
  abstract : Option String := none
  primary_location : Option RawLocation := none
  doi : Option String := none
  concepts : Option (List (Option String)) := none
  cited_by_count : Option Int := none
deriving DecidableEq, Repr

/-- `openalex_id = paper.get('id', '').replace('https://openalex.org/', '')
if paper.get('id') else ''` (`src/app.py` line 159). -/
def rawOpenalexId (w : RawWork) : String :=
  match w.id with
  | some s => if s ≠ "" then strReplace s "https://openalex.org/" "" else ""
  | none => ""

/-- The normalized title: `paper.get('display_name') or
paper.get('title', 'Untitled')` (`src/app.py` line 118). -/
def openalexTitle (w : RawWork) : String :=
  orStr w.display_name (w.title.getD "Untitled")

/-- The normalized year: `paper.get('publication_year') or 0`
(`src/app.py` line 131). -/
def openalexYear (w : RawWork) : Int :=
  match w.publication_year with
  | some y => if y = 0 then 0 else y
  | none => 0

/-- The abstract after the `InvertedAbstract` stripping of `src/app.py`
lines 134-138: default `'No abstract available'`, then strip-and-trim
when the text starts with `"InvertedAbstract"`. -/
def openalexAbstract (w : RawWork) : String :=
  let a := w.abstract.getD "No abstract available"
  if strStarts a "InvertedAbstract" then
    pyStrip (strReplace a "InvertedAbstract" "")
  else a

/-- The journal extraction of `src/app.py` lines 141-145. -/
def openalexJournal (w : RawWork) : String :=
  match w.primary_location with
  | some loc =>
    match loc.source with
    | some src => src.display_name.getD "N/A"
    | none => "N/A"
  | none => "N/A"

/-- `unique_id = openalex_id or hash(f"{title}_{year}")`
(`src/app.py` line 165): the strong provider id when nonempty, otherwise
the weak title/year hash. -/
def openalexUniqueId (openalexId title : String) (year : Int) : PId :=
  if openalexId ≠ "" then .str openalexId
  else .int (pyHash (title ++ "_" ++ toString year))

/-- Normalization of one OpenAlex work into the common paper dictionary
(`src/app.py` lines 117-181). -/
def normalizeOpenAlex (w : RawWork) : Paper :=
  let title := openalexTitle w
  let authors := (w.authorships.getD []).filterMap
    (fun a => a.bind (fun n => if n = "" then none else some n))
  let year := openalexYear w
  let abstract := openalexAbstract w
  let doi :=
    match w.doi with
    | some s => if s ≠ "" then strReplace s "https://doi.org/" "" else ""
    | none => ""
  let concepts := ((w.concepts.getD []).take 5).filterMap
    (fun c => c.bind (fun n => if n = "" then none else some n))
  let openalexId := rawOpenalexId w
  let landing :=
    match w.primary_location with
    | some loc => loc.landing_page_url.getD ""
    | none => ""
  { paperId := some openalexId
    id := some (openalexUniqueId openalexId title year)
    title := title
    authors := if authors = [] then ["Unknown"] else authors
    year := year
    abstract := if abstract = "" then "No abstract available" else abstract
    journal := openalexJournal w
    doi := doi
    keywords := concepts
    citation_count := w.cited_by_count.getD 0
    url := if landing = "" then w.id.getD "" else landing }

/-- One Semantic Scholar paper object, restricted to the keys
`search_semantic_scholar` reads (`src/literature_review_app.py` lines
48-58).  An author is modelled by its optional `name`. -/
structure RawS2 where
  title : Option String := none
  authors : Option (List (Option String)) := none
  year : Option Int := none
  abstract : Option String := none
  venue : Option String := none
  citationCount : Option Int := none
  url : Option String := none
deriving DecidableEq, Repr

/-- The dictionary built per paper by `search_semantic_scholar`
(`src/literature_review_app.py` lines 49-58).  Note `year` is
`paper.get('year')` — no default, so it stays optional. -/
structure S2Paper where
  title : String
  authors : List String
  year : Option Int
  abstract : String
  venue : String
  citations : Int
  url : String
  keywords : List String
deriving DecidableEq, Repr

/-- Normalization of one Semantic Scholar record
(`src/literature_review_app.py` lines 49-58). -/
def normalizeS2 (r : RawS2) : S2Paper :=
  { title := r.title.getD "N/A"
    authors := (r.authors.getD []).map (fun a => a.getD "")
    year := r.year
    abstract := r.abstract.getD "No abstract available"
    venue := r.venue.getD "N/A"
    citations := r.citationCount.getD 0
    url := r.url.getD ""
    keywords := [] }

/-! ## The online-search operation and its error handling -/

/-- The query cleaning and validation of `src/app.py` lines 37-49:
strip; drop `" papers"`/`" paper"`/`" articles"`/`" article"`; strip;
reject empty or shorter-than-2 queries (`none` = no request is made). -/
def cleanQuery (query : String) : Option String :=
  let q := pyStrip query
  if q = "" then none
  else
    let q := pyStrip (strReplace (strReplace (strReplace (strReplace q
      " papers" "") " paper" "") " articles" "") " article" "")
    if q = "" ∨ q.data.length < 2 then none else some q

/-- The `(search, per_page)` request parameters `search_openalex` sends
(`src/app.py` lines 52, 59-62), `none` when no request is made: the limit
is clamped by `limit = max(1, min(limit, 25))` before the HTTP call. -/
def openalexRequestParams (query : String) (limit : Int) : Option (String × Int) :=
  (cleanQuery query).map (fun q => (q, max 1 (min limit 25)))

/-- Outcome of the HTTP exchange, as far as `search_openalex` can observe
it: a transport-level failure (`requests` exception), or a status code with
the parsed JSON body (`none` = the body failed to parse as JSON).  A 200
body carries the optional `results` array. -/
inductive ApiResponse where
  | netError : ApiResponse
  | http : Nat → Option (Option (List RawWork)) → ApiResponse
deriving DecidableEq, Repr

/-- `search_openalex` (`src/app.py` lines 31-227) as a function of the
query, the caller's limit and the observed HTTP outcome.  Every non-200
status, transport error and JSON-parse failure returns `[]` (lines
186-227); a 200 body without `results` is read as `[]` (line 109). -/
def searchOpenalex (query : String) (limit : Int) (resp : ApiResponse) :
    List Paper :=
  match openalexRequestParams query limit with
  | none => []
  | some _ =>
    match resp with
    | .netError => []
    | .http status body =>
      if status = 200 then
        match body with
        | some data => (data.getD []).map normalizeOpenAlex
        | none => []
      else []

/-- Outcome of the Semantic Scholar HTTP exchange: transport failure, or a
status with the parsed body (`none` = malformed JSON); a 200 body carries
the optional `data` array. -/
inductive S2Response where
  | netError : S2Response
  | http : Nat → Option (Option (List RawS2)) → S2Response
deriving DecidableEq, Repr

/-- `search_semantic_scholar` (`src/literature_review_app.py` lines
31-65): non-200 statuses and any exception return `[]`. -/
def searchSemanticScholar (resp : S2Response) : List S2Paper :=
  match resp with
  | .netError => []
  | .http status body =>
    if status = 200 then
      match body with
      | some data => (data.getD []).map normalizeS2
      | none => []
    else []

/-- One online-search render pass restricted to the state components the
spec's Paper Store names (`src/app.py` lines 579-626): the result list is
merged into `all_loaded_papers` only when nonempty; feedback and the
reading list are never touched by this path. -/
def onlineSearchStep (s : Session) (query : String) (limit : Int)
    (resp : ApiResponse) : Session :=
  upsertPapers s (searchOpenalex query limit resp)

/-- An error outcome in the taxonomy of the spec: network failure,
non-200 status (rate limit 429, invalid query 400, anything else), or
malformed JSON. -/
def isErrorResponse : ApiResponse → Prop
  | .netError => True
  | .http status body => status ≠ 200 ∨ body = none

/-- An error outcome of the Semantic Scholar exchange: network failure,
non-200 status, or malformed JSON. -/
def isS2Error : S2Response → Prop
  | .netError => True
  | .http status body => status ≠ 200 ∨ body = none

/-! ## AI ranking and clustering (best-effort reply parsing) -/

/-- `[int(x.strip()) - 1 for x in text.split(',') if x.strip().isdigit()]`
(`src/app.py` line 344). -/
def parseRankIndices (text : String) : List Int :=
  (strSplitOn text ",").filterMap (fun x =>
    let s := pyStrip x
    if s ≠ "" ∧ s.data.all Char.isDigit then
      some ((parseDigits s.data : Int) - 1)
    else none)

/-- `rank_papers_by_relevance` (`src/app.py` lines 325-353) as a function
of the input papers, whether a Gemini key is configured, and the model's
reply (`none` = the call or any later step raised, caught at line 352). -/
def rankPapersByRelevance (papers : List Paper) (hasKey : Bool)
    (reply : Option String) : List Paper :=
  if papers = [] ∨ hasKey = false then papers
  else
    match reply with
    | none => papers
    | some text =>
      let rankedIndices := parseRankIndices text
      let ranked := rankedIndices.filterMap (fun i =>
        if 0 ≤ i ∧ i < (papers.length : Int) then papers[i.toNat]? else none)
      let remaining := (papers.enum.filter
        (fun ip => ¬ ((ip.1 : Int) ∈ rankedIndices))).map Prod.snd
      ranked ++ remaining

/-- `True` when `pat` occurs as a substring of `s` (used for Python's
`pat in line` tests; `pat` is a nonempty literal at every use site). -/
def strContains (s pat : String) : Bool :=
  (strSplitOn s pat).length ≠ 1

/-- The maximal decimal-digit runs of a string, as numbers — the model of
`re.findall(r'\d+', line)` followed by `int` (`src/app.py` line 280). -/
def digitRuns (s : String) : List Nat :=
  go s.data none
where
  /-- Scan the characters, carrying the value of the current digit run. -/
  go : List Char → Option Nat → List Nat
    | [], none => []
    | [], some n => [n]
    | c :: cs, none =>
      if c.isDigit then go cs (some (c.toNat - 48)) else go cs none
    | c :: cs, some n =>
      if c.isDigit then go cs (some (n * 10 + (c.toNat - 48)))
      else n :: go cs none

/-- A parsed cluster: name, member indices, topic tags. -/
structure Cluster where
  papers : List Int := []
  topics : List String := []
deriving DecidableEq, Repr

/-- Insert-or-overwrite for the Python dict of clusters (overwrite keeps
the key's original position, as a Python dict does). -/
def putCluster (cs : List (String × Cluster)) (name : String) (c : Cluster) :
    List (String × Cluster) :=
  if cs.any (fun e => e.1 = name) then
    cs.map (fun e => if e.1 = name then (name, c) else e)
  else cs ++ [(name, c)]

/-- Update the named cluster's entry in place. -/
def modifyCluster (cs : List (String × Cluster)) (name : String)
    (f : Cluster → Cluster) : List (String × Cluster) :=
  cs.map (fun e => if e.1 = name then (name, f e.2) else e)

/-- The line-by-line reply parsing of `cluster_papers` (`src/app.py` lines
267-287): a line mentioning `CLUSTER` opens a cluster named by the text
after the first `':'`; a `Papers:` line fills its member indices (numbers
`n` with `n <= len(papers)`, shifted to `n - 1`); a `Topics:` line fills
its first five comma-separated tags. -/
def parseClusterLines (numPapers : Nat) :
    List String → List (String × Cluster) → Option String →
    List (String × Cluster)
  | [], cs, _ => cs
  | line :: rest, cs, current =>
    if strContains (strUpper line) "CLUSTER" ∨ strContains line "CLUSTER" then
      match strSplitOn line ":" with
      | _ :: tailParts =>
        if tailParts = [] then parseClusterLines numPapers rest cs current
        else
          let name := pyStrip (String.intercalate ":" tailParts)
          parseClusterLines numPapers rest (putCluster cs name {}) (some name)
      | [] => parseClusterLines numPapers rest cs current
    else
      match current with
      | some cur =>
        if strContains line "Papers:" then
          let nums := (digitRuns line).filterMap (fun n =>
            if (n : Int) ≤ (numPapers : Int) then some ((n : Int) - 1) else none)
          parseClusterLines numPapers rest
            (modifyCluster cs cur (fun c => { c with papers := nums })) current
        else if strContains line "Topics:" then
          let t := (((strSplitOn (pyStrip ((strSplitOn line
            "Topics:").getD 1 "")) ",").take 5)).map pyStrip
          parseClusterLines numPapers rest
            (modifyCluster cs cur (fun c => { c with topics := t })) current
        else parseClusterLines numPapers rest cs current
      | none => parseClusterLines numPapers rest cs current

/-- `cluster_papers` (`src/app.py` lines 232-289) as a function of the
input papers, the key flag and the model's reply (`none` = the call
raised, caught at line 288). -/
def clusterPapers (papers : List Paper) (hasKey : Bool)
    (reply : Option String) : List (String × Cluster) :=
  if papers = [] ∨ hasKey = false then []
  else
    match reply with
    | none => []
    | some text => parseClusterLines papers.length (strSplitOn text "\n") [] none

/-! ## Feedback, reading list, selected-paper resolution -/

/-- `f"feedback_{paper_id}"` (`src/app.py` line 967). -/
def fbKey (i : PId) : String := "feedback_" ++ pidStr i

/-- First-match lookup in the feedback mapping. -/
def lookupFb : List (String × Feedback) → String → Option Feedback
  | [], _ => none
  | e :: rest, k => if e.1 = k then some e.2 else lookupFb rest k

/-- `if feedback_key not in paper_feedback: paper_feedback[feedback_key] =
{"relevant": None, "note": ""}` (`src/app.py` lines 969-970). -/
def ensureFb (fb : List (String × Feedback)) (k : String) :
    List (String × Feedback) :=
  match lookupFb fb k with
  | some _ => fb
  | none => fb ++ [(k, {})]

/-- `paper_feedback[feedback_key]["relevant"] = b` on an existing key. -/
def setRelevant (fb : List (String × Feedback)) (k : String) (b : Bool) :
    List (String × Feedback) :=
  fb.map (fun e => if e.1 = k then (e.1, { e.2 with relevant := some b }) else e)

/-- The feedback-button action for identity `i` (`src/app.py` lines
969-980): create the default entry if absent, then set `relevant`. -/
def markFeedback (fb : List (String × Feedback)) (i : PId) (b : Bool) :
    List (String × Feedback) :=
  setRelevant (ensureFb fb (fbKey i)) (fbKey i) b

/-- `p.get('id', hash(p.get('title', '')))` — the identity used by the
feedback summary (`src/app.py` lines 1054, 1061): the stored `id` when the
key is present (even falsy), else a hash of the title alone. -/
def fbIdOf (p : Paper) : PId :=
  p.id.getD (.int (pyHash p.title))

/-- The duplicate-removal loop of `get_papers_with_feedback`
(`src/app.py` lines 1051-1057): keep the first paper per `fbIdOf`. -/
def uniqueByFbId : List Paper → List PId → List Paper
  | [], _ => []
  | p :: rest, seen =>
    if fbIdOf p ∈ seen then uniqueByFbId rest seen
    else p :: uniqueByFbId rest (fbIdOf p :: seen)

/-- The per-paper test of `get_papers_with_feedback` (`src/app.py` lines
1060-1075): a paper lands in the `b`-list, paired with its note, exactly
when its feedback entry exists and `relevant is b`. -/
def fbSelect (fb : List (String × Feedback)) (b : Bool) (p : Paper) :
    Option (Paper × String) :=
  match lookupFb fb (fbKey (fbIdOf p)) with
  | some e => if e.relevant = some b then some (p, e.note) else none
  | none => none

/-- `get_papers_with_feedback` (`src/app.py` lines 1038-1077): combine
`all_loaded_papers` with every cached search result, dedupe by id, then
split papers whose feedback entry is `True` / `False` into the relevant /
not-relevant (paper, note) lists; unset or absent feedback lands in
neither. -/
def getPapersWithFeedback (allLoaded : List Paper)
    (cached : List (List Paper)) (fb : List (String × Feedback)) :
    List (Paper × String) × List (Paper × String) :=
  let unique := uniqueByFbId (allLoaded ++ cached.flatten) []
  (unique.filterMap (fbSelect fb true), unique.filterMap (fbSelect fb false))

/-- The Add-to-List button (`src/app.py` lines 938-942): append the
selected paper only when the very record (whole-dictionary equality, not
identity!) is not yet in `st.session_state.selected_papers`. -/
def addToReadingList (l : List Paper) (p : Paper) : List Paper :=
  if p ∈ l then l else l ++ [p]

/-- Strategy 1 of the selected-paper lookup (`src/app.py` line 864):
exact equality of the candidate's `lookupId` with the held id. -/
def exactMatch (sid : PId) (p : Paper) : Bool :=
  lookupId p = sid

/-- Strategy 2 (`src/app.py` line 869): string-coerced comparison, only
when both values are truthy. -/
def strCoerceMatch (sid : PId) (p : Paper) : Bool :=
  pidTruthy (lookupId p) ∧ pidTruthy sid ∧ pidStr (lookupId p) = pidStr sid

/-- Strategy 3 (`src/app.py` lines 874-885): when the held id is a string
starting with `'W'` (a strong OpenAlex id), compare it with the
candidate's `paperId` field directly. -/
def providerMatch (sid : PId) (p : Paper) : Bool :=
  match sid with
  | .str s => strStarts s "W" ∧ p.paperId = some s
  | .int _ => false

/-- Strategy 4 (`src/app.py` lines 888-891): compare the recomputed weak
title/year hash with the held id, directly or string-coerced. -/
def weakHashMatch (sid : PId) (p : Paper) : Bool :=
  PId.int (titleYearHash p) = sid ∨
    (pidTruthy sid ∧ toString (titleYearHash p) = pidStr sid)

/-- The candidate loop of `src/app.py` lines 848-891: try the four
strategies in order on each paper and stop at the first hit. -/
def findSelectedPaper (sid : PId) : List Paper → Option Paper
  | [] => none
  | p :: rest =>
    if exactMatch sid p then some p
    else if strCoerceMatch sid p then some p
    else if providerMatch sid p then some p
    else if weakHashMatch sid p then some p
    else findSelectedPaper sid rest

/-- Declarative reading of the lookup: a candidate matches when any of
the four ordered strategies accepts it. -/
def matchesSelected (sid : PId) (p : Paper) : Bool :=
  exactMatch sid p ∨ strCoerceMatch sid p ∨ providerMatch sid p ∨
    weakHashMatch sid p

/-- One render pass of the details column for a held
`selected_paper_id` (`src/app.py` lines 842-891 and 1003-1007): the
lookup runs only when the id and the candidate list are truthy, and when
no paper is found the held id is cleared to `None`.  Returns the resolved
paper and the id kept for the next pass. -/
def resolveSelectedId (sel : Option PId) (allPapers : List Paper) :
    Option Paper × Option PId :=
  match sel with
  | none => (none, none)
  | some sid =>
    if pidTruthy sid ∧ allPapers ≠ [] then
      match findSelectedPaper sid allPapers with
      | some p => (some p, some sid)
      | none => (none, none)
    else if pidTruthy sid then (none, none)
    else (none, some sid)

/-! ## Store lemmas -/

/-- Merging a single already-seen paper leaves the store untouched. -/
lemma updateAllLoaded_single (store : List Paper) (p : Paper) :
    updateAllLoaded store [p] =
      if fallbackId p ∈ store.map fallbackId then store else store ++ [p] := by
  by_cases h : fallbackId p ∈ store.map fallbackId <;>
    simp [updateAllLoaded, updLoop, h]

/-- `countId` distributes over append. -/
lemma countId_append (i : PId) (l1 l2 : List Paper) :
    countId i (l1 ++ l2) = countId i l1 + countId i l2 := by
  simp [countId, List.filter_append]

/-- A paper is counted once in its own singleton store. -/
lemma countId_singleton_self (p : Paper) : countId (fallbackId p) [p] = 1 := by
  simp [countId]

/-- `countId i l = 0` exactly when no stored paper carries id `i`. -/
lemma countId_eq_zero (i : PId) (l : List Paper) :
    countId i l = 0 ↔ i ∉ l.map fallbackId := by
  simp only [countId, List.length_eq_zero, List.filter_eq_nil_iff,
    List.mem_map, decide_eq_true_eq]
  constructor
  · rintro h ⟨p, hp, rfl⟩
    exact h p hp rfl
  · intro h p hp hq
    exact h ⟨p, hp, hq⟩

/-- A stored id is counted at least once. -/
lemma one_le_countId (i : PId) (l : List Paper)
    (h : i ∈ l.map fallbackId) : 1 ≤ countId i l := by
  rcases Nat.eq_zero_or_pos (countId i l) with h0 | h1
  · exact absurd ((countId_eq_zero i l).mp h0) (by simpa using h)
  · exact h1

/-- Merging two same-id records one after the other: the second merge is a
no-op and the id is stored exactly once (given the store's no-duplicate
invariant). -/
lemma updateAllLoaded_twice (st : List Paper) (p1 p2 : Paper)
    (hid : fallbackId p1 = fallbackId p2)
    (hinv : countId (fallbackId p1) st ≤ 1) :
    updateAllLoaded (updateAllLoaded st [p1]) [p2] = updateAllLoaded st [p1] ∧
      countId (fallbackId p1) (updateAllLoaded st [p1]) = 1 := by
  by_cases h : fallbackId p1 ∈ st.map fallbackId
  · have e1 : updateAllLoaded st [p1] = st := by
      rw [updateAllLoaded_single]; simp [h]
    refine ⟨?_, ?_⟩
    · rw [e1, updateAllLoaded_single, if_pos (hid ▸ h)]
    · rw [e1]
      exact le_antisymm hinv (one_le_countId _ _ h)
  · have e1 : updateAllLoaded st [p1] = st ++ [p1] := by
      rw [updateAllLoaded_single]; simp [h]
    refine ⟨?_, ?_⟩
    · have hmem : fallbackId p2 ∈ (st ++ [p1]).map fallbackId := by
        simp [← hid]
      rw [e1, updateAllLoaded_single, if_pos hmem]
    · have h0 : countId (fallbackId p1) st = 0 := (countId_eq_zero _ _).mpr h
      rw [e1, countId_append, countId_singleton_self, h0]

/-! ## Claims -/

/-- Concrete sample records used by witnesses and counterexamples. -/
def recA2020 : Paper :=
  { paperId := some "P1", id := some (.str "P1"), title := "A", year := 2020 }

/-- Second fetch of the same provider identity with revised fields. -/
def recA2021 : Paper :=
  { paperId := some "P1", id := some (.str "P1"), title := "A (revised)",
    year := 2021 }

/-- A provider-id-less local record (`{title: "Foo", year: 2019}`). -/
def recFoo : Paper :=
  { id := some (.int (pyHash "Foo_2019")), title := "Foo", year := 2019 }

/-- C1 counterexample: upserting `recA2020` then `recA2021` (same strong
provider identity `"P1"`, different titles/years) leaves the store holding
the FIRST record — title `"A"`, year 2020 — not the latest fetch, refuting
"the stored record is replaced, not kept". -/
theorem upsert_latest_wins_refuted :
    updateAllLoaded (updateAllLoaded [] [recA2020]) [recA2021] = [recA2020] ∧
      recA2020.title = "A" ∧ recA2021.title = "A (revised)" ∧
      ¬ updateAllLoaded (updateAllLoaded [] [recA2020]) [recA2021] =
        [recA2021] := by
  decide

/-- C1 (amended): upserting two records with the same identity leaves the
Paper Store with exactly one entry for that identity, and that entry's
record fields are those of the FIRST fetch — the stored record is kept,
not replaced (the second merge is a no-op). -/
theorem upsert_same_id_keeps_first_record (st : List Paper) (p1 p2 : Paper)
    (hid : fallbackId p1 = fallbackId p2)
    (hinv : countId (fallbackId p1) st ≤ 1) :
    updateAllLoaded (updateAllLoaded st [p1]) [p2] = updateAllLoaded st [p1] ∧
      countId (fallbackId p1)
        (updateAllLoaded (updateAllLoaded st [p1]) [p2]) = 1 ∧
      (fallbackId p1 ∉ st.map fallbackId →
        updateAllLoaded (updateAllLoaded st [p1]) [p2] = st ++ [p1]) := by
  obtain ⟨heq, hcount⟩ := updateAllLoaded_twice st p1 p2 hid hinv
  refine ⟨heq, by rw [heq]; exact hcount, fun hnot => ?_⟩
  rw [heq, updateAllLoaded_single, if_neg hnot]

/-- C1 witness: the amended claim at the concrete scenario records. -/
theorem upsert_same_id_keeps_first_record_witness :
    updateAllLoaded (updateAllLoaded [] [recA2020]) [recA2021] =
        updateAllLoaded [] [recA2020] ∧
      updateAllLoaded (updateAllLoaded [] [recA2020]) [recA2021] =
        [] ++ [recA2020] := by
  have h := upsert_same_id_keeps_first_record [] recA2020 recA2021
    (by decide) (by decide)
  exact ⟨h.1, h.2.2 (by decide)⟩

/-- C4: upsert is idempotent — upserting the same record twice leaves the
Paper Store with exactly one entry for its identity and leaves the
feedback and reading-list state unchanged (the upsert path never touches
them). -/
theorem upsert_idempotent (s : Session) (r : Paper)
    (hinv : countId (fallbackId r) s.allLoadedPapers ≤ 1) :
    upsertPapers (upsertPapers s [r]) [r] = upsertPapers s [r] ∧
      countId (fallbackId r)
        (upsertPapers (upsertPapers s [r]) [r]).allLoadedPapers = 1 ∧
      (upsertPapers (upsertPapers s [r]) [r]).paperFeedback =
        s.paperFeedback ∧
      (upsertPapers (upsertPapers s [r]) [r]).selectedPapers =
        s.selectedPapers := by
  obtain ⟨heq, hcount⟩ := updateAllLoaded_twice s.allLoadedPapers r r rfl hinv
  have hne : ([r] : List Paper) ≠ [] := by simp
  refine ⟨?_, ?_, ?_, ?_⟩ <;> simp [upsertPapers, heq, hcount]

/-- C4 witness: the amended-free claim at the concrete no-provider-id
record `{title: "Foo", year: 2019}` on the empty session. -/
theorem upsert_idempotent_witness :
    upsertPapers (upsertPapers {} [recFoo]) [recFoo] =
        upsertPapers {} [recFoo] ∧
      countId (fallbackId recFoo)
        (upsertPapers (upsertPapers {} [recFoo]) [recFoo]).allLoadedPapers
        = 1 := by
  have h := upsert_idempotent {} recFoo (by decide)
  exact ⟨h.1, h.2.1⟩

/-- Reading-list records sharing the provider identity `"W1"` but
differing in `citation_count`. -/
def recW1a : Paper :=
  { paperId := some "W1", id := some (.str "W1"), title := "B", year := 2020,
    citation_count := 5 }

/-- The same logical paper fetched again with an updated citation count. -/
def recW1b : Paper :=
  { paperId := some "W1", id := some (.str "W1"), title := "B", year := 2020,
    citation_count := 6 }

/-- C9 counterexample: the Add-to-List button deduplicates by
whole-record equality, not by identity — adding two records with the SAME
identity `"W1"` (differing only in `citation_count`) yields a reading
list with two entries for one identity. -/
theorem reading_list_identity_dedup_refuted :
    addToReadingList (addToReadingList [] recW1a) recW1b =
        [recW1a, recW1b] ∧
      fallbackId recW1a = fallbackId recW1b ∧ recW1a ≠ recW1b := by
  decide

/-- C9 (amended): adding a record already present — by whole-record
equality, not identity — is a no-op, and the reading list never contains
duplicate records; duplicate identities remain possible when the records
differ in any field. -/
theorem reading_list_record_dedup (l : List Paper) (p : Paper) :
    (p ∈ l → addToReadingList l p = l) ∧
      (l.Nodup → (addToReadingList l p).Nodup) := by
  constructor
  · intro h
    simp [addToReadingList, h]
  · intro h
    by_cases hm : p ∈ l
    · simpa [addToReadingList, hm] using h
    · simp [addToReadingList, hm, List.nodup_append, h]

/-- C9 witness: re-adding the identical record is a no-op and keeps the
one-element list duplicate-free. -/
theorem reading_list_record_dedup_witness :
    addToReadingList [recW1a] recW1a = [recW1a] ∧
      (addToReadingList [recW1a] recW1a).Nodup := by
  have h := reading_list_record_dedup [recW1a] recW1a
  exact ⟨h.1 (by decide), h.2 (by decide)⟩

/-- A reply without any `CLUSTER` line never opens a cluster, so the
parser returns its accumulator unchanged when no cluster is current. -/
lemma parseClusterLines_no_cluster (n : Nat) (lines : List String)
    (cs : List (String × Cluster))
    (h : ∀ line ∈ lines, (strContains (strUpper line) "CLUSTER" ∨
      strContains line "CLUSTER" : Bool) = false) :
    parseClusterLines n lines cs none = cs := by
  induction lines with
  | nil => rfl
  | cons line rest ih =>
    have hln : ¬(strContains (strUpper line) "CLUSTER" = true ∨
        strContains line "CLUSTER" = true) :=
      of_decide_eq_false (h line (by simp))
    have hr : ∀ l ∈ rest, (strContains (strUpper l) "CLUSTER" ∨
        strContains l "CLUSTER" : Bool) = false :=
      fun l hm => h l (by simp [hm])
    rw [parseClusterLines, if_neg hln]
    exact ih hr

/-- C7: ranking and clustering degrade on any parse failure — an
exception during the AI call (reply `none`) or a reply yielding no usable
indices / no cluster line returns the input papers in their original
order for ranking and an empty mapping for clustering; both embeddings
are total, so neither operation raises. -/
theorem ai_parse_failure_degrades (papers : List Paper) (hasKey : Bool)
    (text : String) :
    rankPapersByRelevance papers hasKey none = papers ∧
      clusterPapers papers hasKey none = [] ∧
      (parseRankIndices text = [] →
        rankPapersByRelevance papers hasKey (some text) = papers) ∧
      ((∀ line ∈ strSplitOn text "\n", (strContains (strUpper line)
          "CLUSTER" ∨ strContains line "CLUSTER" : Bool) = false) →
        clusterPapers papers hasKey (some text) = []) := by
  refine ⟨?_, ?_, fun hidx => ?_, fun hcl => ?_⟩
  · unfold rankPapersByRelevance
    by_cases h : papers = [] ∨ hasKey = false <;> simp [h]
  · unfold clusterPapers
    by_cases h : papers = [] ∨ hasKey = false <;> simp [h]
  · unfold rankPapersByRelevance
    by_cases h : papers = [] ∨ hasKey = false
    · simp [h]
    · simp only [h, if_false, hidx]
      simp [List.filter_eq_self.mpr, List.enum_map_snd]
  · unfold clusterPapers
    by_cases h : papers = [] ∨ hasKey = false
    · simp [h]
    · simp only [h, if_false]
      exact parseClusterLines_no_cluster papers.length _ [] hcl

/-- C7 witness: a reply with no usable indices and no cluster line at a
concrete one-paper input, plus the exception path. -/
theorem ai_parse_failure_degrades_witness :
    rankPapersByRelevance [recFoo] true
        (some "sorry, I cannot rank these") = [recFoo] ∧
      clusterPapers [recFoo] true (some "sorry, I cannot rank these") = [] ∧
      rankPapersByRelevance [recFoo] true none = [recFoo] ∧
      clusterPapers [recFoo] true none = [] := by
  have h := ai_parse_failure_degrades [recFoo] true "sorry, I cannot rank these"
  exact ⟨h.2.2.1 (by decide), h.2.2.2 (by decide), h.1, h.2.1⟩

/-- The candidate loop with its ordered strategy chain returns exactly
the first candidate matched by any of the four strategies. -/
lemma findSelectedPaper_eq_find (sid : PId) (papers : List Paper) :
    findSelectedPaper sid papers = papers.find? (matchesSelected sid) := by
  induction papers with
  | nil => rfl
  | cons p rest ih =>
    cases h1 : exactMatch sid p <;> cases h2 : strCoerceMatch sid p <;>
      cases h3 : providerMatch sid p <;> cases h4 : weakHashMatch sid p <;>
      simp [findSelectedPaper, List.find?, matchesSelected, h1, h2, h3, h4, ih]

/-- C3: resolving a held identity tries, per candidate and in this order,
exact equality, string-coerced equality, the direct provider-id match for
strong `W`-prefixed identities, and the recomputed weak title/year hash —
the loop returns the first candidate any strategy accepts; when no
candidate matches, the held `selected_paper_id` is cleared to none
instead of being kept stale. -/
theorem selected_resolution_chain (sid : PId) (papers : List Paper)
    (h : pidTruthy sid = true) :
    findSelectedPaper sid papers = papers.find? (matchesSelected sid) ∧
      ((∀ p ∈ papers, matchesSelected sid p = false) →
        resolveSelectedId (some sid) papers = (none, none)) := by
  refine ⟨findSelectedPaper_eq_find sid papers, fun hall => ?_⟩
  have hnone : findSelectedPaper sid papers = none := by
    rw [findSelectedPaper_eq_find]
    exact List.find?_eq_none.mpr (fun p hp => by simp [hall p hp])
  by_cases hne : papers = []
  · subst hne
    simp [resolveSelectedId, h]
  · simp [resolveSelectedId, h, hne, hnone]

/-- C3 witness: a stale strong identity (`"W9"`) against a store holding
only the `"W1"` record resolves to "not found" and is cleared. -/
theorem selected_resolution_chain_witness :
    resolveSelectedId (some (.str "W9")) [recW1a] = (none, none) ∧
      findSelectedPaper (.str "W9") [recW1a] =
        List.find? (matchesSelected (.str "W9")) [recW1a] := by
  exact ⟨(selected_resolution_chain (.str "W9") [recW1a] (by decide)).2
      (by decide),
    (selected_resolution_chain (.str "W9") [recW1a] (by decide)).1⟩

/-- Appending a fresh key makes it found with its value. -/
lemma lookupFb_append_single (l : List (String × Feedback)) (k : String)
    (v : Feedback) (h : lookupFb l k = none) :
    lookupFb (l ++ [(k, v)]) k = some v := by
  induction l with
  | nil => simp [lookupFb]
  | cons e rest ih =>
    by_cases hk : e.1 = k
    · rw [lookupFb, if_pos hk] at h
      cases h
    · rw [lookupFb, if_neg hk] at h
      simpa [lookupFb, hk] using ih h

/-- After `ensureFb` the key is present. -/
lemma lookupFb_ensureFb (fb : List (String × Feedback)) (k : String) :
    ∃ e, lookupFb (ensureFb fb k) k = some e := by
  unfold ensureFb
  cases h : lookupFb fb k with
  | some e => exact ⟨e, h⟩
  | none => exact ⟨{}, lookupFb_append_single fb k {} h⟩

/-- `setRelevant` rewrites exactly the looked-up entry. -/
lemma lookupFb_setRelevant (fb : List (String × Feedback)) (k : String)
    (b : Bool) :
    lookupFb (setRelevant fb k b) k =
      (lookupFb fb k).map (fun e => { e with relevant := some b }) := by
  induction fb with
  | nil => rfl
  | cons e rest ih =>
    by_cases hk : e.1 = k <;> simp [setRelevant, lookupFb, hk]
    simpa [setRelevant] using ih

/-- The feedback button leaves the key holding `relevant = some b`. -/
lemma markFeedback_lookup (fb : List (String × Feedback)) (i : PId)
    (b : Bool) :
    ∃ e, lookupFb (markFeedback fb i b) (fbKey i) = some e ∧
      e.relevant = some b := by
  obtain ⟨e0, he⟩ := lookupFb_ensureFb fb (fbKey i)
  refine ⟨{ e0 with relevant := some b }, ?_, rfl⟩
  rw [markFeedback, lookupFb_setRelevant, he]
  rfl

/-- Deduplication keeps a representative of every stored id that is not
already excluded by `seen`. -/
lemma uniqueByFbId_exists (l : List Paper) :
    ∀ (seen : List PId) (i : PId), (∃ p ∈ l, fbIdOf p = i) → i ∉ seen →
      ∃ p ∈ uniqueByFbId l seen, fbIdOf p = i := by
  induction l with
  | nil =>
    rintro seen i ⟨p, hp, _⟩ _
    cases hp
  | cons q rest ih =>
    rintro seen i ⟨p, hp, hpi⟩ hs
    by_cases hq : fbIdOf q ∈ seen
    · rw [uniqueByFbId, if_pos hq]
      rcases List.mem_cons.mp hp with rfl | hrest
      · exact absurd (hpi ▸ hq) hs
      · exact ih seen i ⟨p, hrest, hpi⟩ hs
    · rw [uniqueByFbId, if_neg hq]
      by_cases hqi : fbIdOf q = i
      · exact ⟨q, by simp, hqi⟩
      · have hw' : ∃ p ∈ rest, fbIdOf p = i := by
          rcases List.mem_cons.mp hp with rfl | hrest
          · exact absurd hpi hqi
          · exact ⟨p, hrest, hpi⟩
        have hs' : i ∉ fbIdOf q :: seen := by
          simp only [List.mem_cons]
          rintro (rfl | hmem)
          · exact hqi rfl
          · exact hs hmem
        obtain ⟨p', hp', hpi'⟩ := ih (fbIdOf q :: seen) i hw' hs'
        exact ⟨p', by simp [hp'], hpi'⟩

/-- What membership of the `b`-list tells about a pair's paper. -/
lemma fbSelect_eq_some (fb : List (String × Feedback)) (b : Bool)
    (q : Paper) (pr : Paper × String) (h : fbSelect fb b q = some pr) :
    pr.1 = q ∧ ∃ e, lookupFb fb (fbKey (fbIdOf q)) = some e ∧
      e.relevant = some b := by
  unfold fbSelect at h
  split at h
  case h_2 => cases h
  case h_1 e hlk =>
    split at h
    case isFalse => cases h
    case isTrue hrel =>
      obtain rfl : pr = (q, e.note) := (Option.some.inj h).symm
      exact ⟨rfl, e, hlk, hrel⟩

/-- C8: after marking an identity's feedback as relevant, the feedback
summary's relevant listing contains that identity as a (record, note)
pair, its not-relevant listing does not; and any identity whose feedback
entry is absent or unset appears in neither listing. -/
theorem feedback_listing_consistency (allLoaded : List Paper)
    (cached : List (List Paper)) (fb : List (String × Feedback)) (i : PId)
    (hp : ∃ p ∈ allLoaded ++ cached.flatten, fbIdOf p = i) :
    (∃ pr ∈ (getPapersWithFeedback allLoaded cached
        (markFeedback fb i true)).1, fbIdOf pr.1 = i) ∧
      (∀ pr ∈ (getPapersWithFeedback allLoaded cached
        (markFeedback fb i true)).2, fbIdOf pr.1 ≠ i) ∧
      (∀ j : PId,
        (∀ e, lookupFb (markFeedback fb i true) (fbKey j) = some e →
          e.relevant = none) →
        (∀ pr ∈ (getPapersWithFeedback allLoaded cached
            (markFeedback fb i true)).1, fbIdOf pr.1 ≠ j) ∧
        (∀ pr ∈ (getPapersWithFeedback allLoaded cached
            (markFeedback fb i true)).2, fbIdOf pr.1 ≠ j)) := by
  obtain ⟨e, he, her⟩ := markFeedback_lookup fb i true
  obtain ⟨p, hpmem, hpi⟩ := uniqueByFbId_exists _ [] i hp (by simp)
  refine ⟨?_, ?_, ?_⟩
  · refine ⟨(p, e.note), ?_, hpi⟩
    simp only [getPapersWithFeedback]
    refine List.mem_filterMap.mpr ⟨p, hpmem, ?_⟩
    unfold fbSelect
    rw [hpi, he]
    simp [her]
  · intro pr hpr heq
    simp only [getPapersWithFeedback] at hpr
    obtain ⟨q, _, hfq⟩ := List.mem_filterMap.mp hpr
    obtain ⟨rfl, ef, hef, hrel⟩ := fbSelect_eq_some _ _ _ _ hfq
    rw [heq, he] at hef
    cases Option.some.inj hef
    rw [her] at hrel
    cases hrel
  · intro j hj
    constructor <;> intro pr hpr heq <;>
      simp only [getPapersWithFeedback] at hpr <;>
      obtain ⟨q, _, hfq⟩ := List.mem_filterMap.mp hpr <;>
      obtain ⟨rfl, ef, hef, hrel⟩ := fbSelect_eq_some _ _ _ _ hfq <;>
      rw [heq] at hef <;> rw [hj ef hef] at hrel <;> cases hrel

/-- C8 witness: marking the `recFoo` identity relevant lists it in the
relevant tab and nowhere else. -/
theorem feedback_listing_consistency_witness :
    (∃ pr ∈ (getPapersWithFeedback [recFoo] []
        (markFeedback [] (fbIdOf recFoo) true)).1,
      fbIdOf pr.1 = fbIdOf recFoo) ∧
      (∀ pr ∈ (getPapersWithFeedback [recFoo] []
          (markFeedback [] (fbIdOf recFoo) true)).2,
        fbIdOf pr.1 ≠ fbIdOf recFoo) := by
  have h := feedback_listing_consistency [recFoo] [] [] (fbIdOf recFoo)
    ⟨recFoo, by simp, rfl⟩
  exact ⟨h.1, h.2.1⟩

/-- C10: whatever limit the caller passes, the `per_page` value sent to
the OpenAlex API is clamped into `[1, 25]` before the request is made. -/
theorem openalex_per_page_clamped (q : String) (lim : Int) (p : String × Int)
    (h : openalexRequestParams q lim = some p) : 1 ≤ p.2 ∧ p.2 ≤ 25 := by
  unfold openalexRequestParams at h
  cases hq : cleanQuery q with
  | none => rw [hq] at h; cases h
  | some c =>
    rw [hq] at h
    cases h
    refine ⟨le_max_left 1 _, max_le (by norm_num) (min_le_right _ _)⟩

/-- The id stored by OpenAlex normalization is the `unique_id` of
`src/app.py` line 165. -/
lemma normalizeOpenAlex_id (w : RawWork) :
    (normalizeOpenAlex w).id =
      some (openalexUniqueId (rawOpenalexId w) (openalexTitle w)
        (openalexYear w)) := rfl

/-- Title projection of the normalized record. -/
lemma normalizeOpenAlex_title (w : RawWork) :
    (normalizeOpenAlex w).title = openalexTitle w := rfl

/-- Abstract projection of the normalized record. -/
lemma normalizeOpenAlex_abstract (w : RawWork) :
    (normalizeOpenAlex w).abstract =
      (if openalexAbstract w = "" then "No abstract available"
       else openalexAbstract w) := rfl

/-- Journal projection of the normalized record. -/
lemma normalizeOpenAlex_journal (w : RawWork) :
    (normalizeOpenAlex w).journal = openalexJournal w := rfl

/-- DOI projection of the normalized record. -/
lemma normalizeOpenAlex_doi (w : RawWork) :
    (normalizeOpenAlex w).doi =
      (match w.doi with
       | some s => if s ≠ "" then strReplace s "https://doi.org/" "" else ""
       | none => "") := rfl

/-- URL projection of the normalized record. -/
lemma normalizeOpenAlex_url (w : RawWork) :
    (normalizeOpenAlex w).url =
      (if (match w.primary_location with
           | some loc => loc.landing_page_url.getD ""
           | none => "") = ""
       then w.id.getD ""
       else (match w.primary_location with
             | some loc => loc.landing_page_url.getD ""
             | none => "")) := rfl

/-- Authors projection of the normalized record. -/
lemma normalizeOpenAlex_authors (w : RawWork) :
    (normalizeOpenAlex w).authors =
      (if (w.authorships.getD []).filterMap
          (fun a => a.bind (fun n => if n = "" then none else some n)) = []
       then ["Unknown"]
       else (w.authorships.getD []).filterMap
          (fun a => a.bind (fun n => if n = "" then none else some n))) := rfl

/-- C2: identity computation is a priority choice — a record with a
(nonempty) provider id uses it directly as the Identity; a record without
one gets the deterministic hash of its (title, year) pair, so two
provider-id-less records sharing title and year collide (documented weak
identity), while two records with distinct provider ids never share an
Identity. -/
theorem identity_priority_choice (w w' : RawWork) :
    (rawOpenalexId w ≠ "" →
      (normalizeOpenAlex w).id = some (.str (rawOpenalexId w))) ∧
    (rawOpenalexId w = "" →
      (normalizeOpenAlex w).id = some (.int (pyHash
        (openalexTitle w ++ "_" ++ toString (openalexYear w))))) ∧
    (rawOpenalexId w = "" → rawOpenalexId w' = "" →
      openalexTitle w = openalexTitle w' →
      openalexYear w = openalexYear w' →
      (normalizeOpenAlex w).id = (normalizeOpenAlex w').id) ∧
    (rawOpenalexId w ≠ "" → rawOpenalexId w' ≠ "" →
      rawOpenalexId w ≠ rawOpenalexId w' →
      (normalizeOpenAlex w).id ≠ (normalizeOpenAlex w').id) := by
  refine ⟨fun h => ?_, fun h => ?_, fun h h' ht hy => ?_, fun h h' hne => ?_⟩
  · rw [normalizeOpenAlex_id, openalexUniqueId, if_pos h]
  · rw [normalizeOpenAlex_id, openalexUniqueId, if_neg (by simp [h])]
  · rw [normalizeOpenAlex_id, normalizeOpenAlex_id, openalexUniqueId,
      openalexUniqueId, h, h', ht, hy]
  · rw [normalizeOpenAlex_id, normalizeOpenAlex_id, openalexUniqueId,
      openalexUniqueId, if_pos h, if_pos h']
    intro hc
    exact hne (by injection (Option.some.inj hc))

/-- A raw OpenAlex work carrying the provider id `W1`. -/
def rawWorkW1 : RawWork := { id := some "https://openalex.org/W1" }

/-- A provider-id-less raw work. -/
def rawNoId1 : RawWork :=
  { title := some "Same Title", publication_year := some 2021,
    abstract := some "first" }

/-- A distinct provider-id-less raw work sharing title and year with
`rawNoId1`. -/
def rawNoId2 : RawWork :=
  { title := some "Same Title", publication_year := some 2021,
    abstract := some "second" }

/-- C2 witness: the provider id is used directly, and the two distinct
provider-id-less works sharing title and year receive the same weak
Identity. -/
theorem identity_priority_choice_witness :
    (normalizeOpenAlex rawWorkW1).id = some (.str (rawOpenalexId rawWorkW1)) ∧
      (normalizeOpenAlex rawNoId1).id = (normalizeOpenAlex rawNoId2).id := by
  exact ⟨(identity_priority_choice rawWorkW1 rawWorkW1).1 (by decide),
    (identity_priority_choice rawNoId1 rawNoId2).2.2.1 (by decide)
      (by decide) (by decide) (by decide)⟩

/-- C5 counterexample: in the Semantic Scholar adapter a raw record with
no fields normalizes to an EMPTY authors list (no `["Unknown"]` default)
and a `null` year, refuting "the authors list is never empty" and "no
missing or null field". -/
theorem normalization_total_refuted :
    (normalizeS2 {}).authors = [] ∧ (normalizeS2 {}).year = none := by
  decide

/-- C5 (amended): normalization never fails on missing fields and fills
the documented defaults — in the OpenAlex adapter a missing title becomes
`"Untitled"`, a missing abstract `"No abstract available"`, a missing
journal `"N/A"`, missing doi/url empty strings, and the authors list is
never empty; in the Semantic Scholar adapter the string fields get their
defaults (`"N/A"`, `"No abstract available"`, `""`), but a missing year
stays null and a missing authors list stays empty. -/
theorem normalization_defaults :
    (∀ w : RawWork,
      (normalizeOpenAlex w).authors ≠ [] ∧
      (w.display_name = none → w.title = none →
        (normalizeOpenAlex w).title = "Untitled") ∧
      (w.abstract = none →
        (normalizeOpenAlex w).abstract = "No abstract available") ∧
      (w.primary_location = none → (normalizeOpenAlex w).journal = "N/A") ∧
      (w.doi = none → (normalizeOpenAlex w).doi = "") ∧
      (w.primary_location = none → w.id = none →
        (normalizeOpenAlex w).url = "")) ∧
    (∀ r : RawS2,
      (r.title = none → (normalizeS2 r).title = "N/A") ∧
      (r.abstract = none →
        (normalizeS2 r).abstract = "No abstract available") ∧
      (r.venue = none → (normalizeS2 r).venue = "N/A") ∧
      (r.url = none → (normalizeS2 r).url = "")) := by
  constructor
  · intro w
    refine ⟨?_, fun h1 h2 => ?_, fun h => ?_, fun h => ?_, fun h => ?_,
      fun h1 h2 => ?_⟩
    · rw [normalizeOpenAlex_authors]
      by_cases hc : (w.authorships.getD []).filterMap
          (fun a => a.bind (fun n => if n = "" then none else some n)) = []
      · simp [hc]
      · simp [hc]
    · rw [normalizeOpenAlex_title, openalexTitle, h1, h2]
      decide
    · rw [normalizeOpenAlex_abstract, openalexAbstract, h]
      decide
    · rw [normalizeOpenAlex_journal, openalexJournal, h]
    · rw [normalizeOpenAlex_doi, h]
    · rw [normalizeOpenAlex_url, h1, h2]
      decide
  · intro r
    exact ⟨fun h => by simp [normalizeS2, h], fun h => by simp [normalizeS2, h],
      fun h => by simp [normalizeS2, h], fun h => by simp [normalizeS2, h]⟩

/-- C5 witness: the defaults at the empty raw records. -/
theorem normalization_defaults_witness :
    (normalizeOpenAlex {}).authors ≠ [] ∧
      (normalizeOpenAlex {}).title = "Untitled" ∧
      (normalizeOpenAlex {}).abstract = "No abstract available" ∧
      (normalizeOpenAlex {}).journal = "N/A" ∧
      (normalizeOpenAlex {}).doi = "" ∧
      (normalizeOpenAlex {}).url = "" ∧
      (normalizeS2 {}).abstract = "No abstract available" := by
  have h := normalization_defaults
  obtain ⟨ha, ht, hab, hj, hd, hu⟩ := h.1 {}
  exact ⟨ha, ht rfl rfl, hab rfl, hj rfl, hd rfl, hu rfl rfl,
    (h.2 {}).2.1 rfl⟩

/-- C6: every source-backend error (network failure, any non-200 status —
rate limit, invalid query, server error — or malformed JSON) makes the
search return an empty list, leaving the Paper Store, feedback and
reading list unchanged; a 200 response with an empty `results` array is
the equally valid no-results outcome, also leaving state unchanged. -/
theorem source_error_policy (s : Session) (q : String) (lim : Int)
    (resp : ApiResponse) (r2 : S2Response) :
    (isErrorResponse resp →
      searchOpenalex q lim resp = [] ∧ onlineSearchStep s q lim resp = s) ∧
    (searchOpenalex q lim (.http 200 (some (some []))) = [] ∧
      onlineSearchStep s q lim (.http 200 (some (some []))) = s) ∧
    (isS2Error r2 → searchSemanticScholar r2 = []) := by
  have hempty : searchOpenalex q lim (.http 200 (some (some []))) = [] := by
    unfold searchOpenalex
    cases openalexRequestParams q lim <;> simp
  refine ⟨fun h => ?_, ⟨hempty, ?_⟩, fun h => ?_⟩
  · have he : searchOpenalex q lim resp = [] := by
      unfold searchOpenalex
      cases resp with
      | netError => cases openalexRequestParams q lim <;> simp
      | http status body =>
        rcases h with hst | hb
        · cases openalexRequestParams q lim <;> simp [if_neg hst]
        · subst hb
          cases openalexRequestParams q lim <;>
            · by_cases hst : status = 200 <;> simp [hst]
    exact ⟨he, by simp [onlineSearchStep, he, upsertPapers]⟩
  · simp [onlineSearchStep, hempty, upsertPapers]
  · unfold searchSemanticScholar
    cases r2 with
    | netError => rfl
    | http status body =>
      rcases h with hst | hb
      · simp [if_neg hst]
      · subst hb
        by_cases hst : status = 200 <;> simp [hst]

/-- C6 witness: the policy at a concrete network failure, a 400 status,
an empty-results 200, and a Semantic Scholar 403. -/
theorem source_error_policy_witness :
    (searchOpenalex "machine learning" 20 .netError = [] ∧
      onlineSearchStep {} "machine learning" 20 .netError = {}) ∧
      (searchOpenalex "machine learning" 20 (.http 400 (some none)) = []) ∧
      (searchOpenalex "machine learning" 20 (.http 200 (some (some []))) = []) ∧
      searchSemanticScholar (.http 403 (some (some []))) = [] := by
  refine ⟨(source_error_policy {} "machine learning" 20 .netError
      (.http 403 (some (some []))) ).1 trivial, ?_, ?_, ?_⟩
  · exact ((source_error_policy {} "machine learning" 20
      (.http 400 (some none)) .netError).1 (.inl (by decide))).1
  · exact (source_error_policy {} "machine learning" 20 .netError
      .netError).2.1.1
  · exact (source_error_policy {} "machine learning" 20 .netError
      (.http 403 (some (some [])))).2.2 (.inl (by decide))

/-- C10 witness: a requested limit of 200 still asks the API for 25
results. -/
theorem openalex_per_page_clamped_witness :
    openalexRequestParams "machine learning" 200 =
        some ("machine learning", 25) ∧
      1 ≤ (("machine learning", (25 : Int)) : String × Int).2 ∧
      (("machine learning", (25 : Int)) : String × Int).2 ≤ 25 := by
  refine ⟨by decide, ?_⟩
  exact openalex_per_page_clamped "machine learning" 200 _ (by decide)

end LitReview
